import Mathlib

/-!
Verification of the forecasting-and-anomaly engine of the smart rental
tracker.  The Python sources `ml/anomaly_detector.py`, `ml/demand_forecaster.py`
and `ml/smart_ml_system.py` are shallowly embedded below: machine floats are
modelled as rationals (`ℚ`), calendar dates as day numbers (`ℕ`), pandas data
frames as lists of records, and the opaque fitted scikit-learn artifacts as
explicit data or function parameters.  Definitions are translated from the
source; names follow the source where Lean allows it.
-/

/-- Python's `str.endswith`: `suffix` is a suffix of `s`.  Stated over the
character lists so the kernel can evaluate it. -/
def pyEndsWith (s suffix : String) : Bool :=
  suffix.data.isSuffixOf s.data

/-- Rounding of a scaled value to the nearest integer, ties to the even
integer (the tie rule of Python's built-in `round`). -/
def pyRoundInt (s : ℚ) : ℤ :=
  if 1 / 2 < s - ⌊s⌋ then ⌊s⌋ + 1
  else if s - ⌊s⌋ < 1 / 2 then ⌊s⌋
  else if ⌊s⌋ % 2 = 0 then ⌊s⌋ else ⌊s⌋ + 1

/-- Python's built-in `round(q, n)`: round to `n` decimal digits, ties to the
even integer (banker's rounding). -/
def pyRound (q : ℚ) (n : ℕ) : ℚ :=
  (pyRoundInt (q * 10 ^ n) : ℚ) / (10 ^ n)

namespace AnomalyDetector

/-- One raw rental record as `AnomalyDetector.engineer_features` reads it.
Only the usage-hour columns enter the three ratio features verified here;
the remaining CSV columns (ids, dates, operating days) do not occur in them. -/
structure UsageRecord where
  engineHoursPerDay : ℚ
  idleHoursPerDay : ℚ

/-- The epsilon guard `1e-8` added to every ratio denominator in
`engineer_features`. -/
def epsGuard : ℚ := 1 / 100000000

/-- Column `Total_Hours`: `Engine Hours/Day + Idle Hours/Day`
(anomaly_detector.py line 73). -/
def Total_Hours (r : UsageRecord) : ℚ :=
  r.engineHoursPerDay + r.idleHoursPerDay

/-- Column `Idle_Ratio`: `Idle Hours/Day / (Total_Hours + 1e-8)`
(anomaly_detector.py line 76). -/
def Idle_Ratio (r : UsageRecord) : ℚ :=
  r.idleHoursPerDay / (Total_Hours r + epsGuard)

/-- Column `Utilization_Efficiency`: `Engine Hours/Day / (Total_Hours + 1e-8)`
(anomaly_detector.py line 79). -/
def Utilization_Efficiency (r : UsageRecord) : ℚ :=
  r.engineHoursPerDay / (Total_Hours r + epsGuard)

/-- The per-feature statistical baselines stored by
`calculate_statistical_thresholds`. -/
structure FeatureThresholds where
  mean : ℚ
  std : ℚ
  threshold_2std : ℚ
  threshold_minus_2std : ℚ
  threshold_3std : ℚ
  threshold_minus_3std : ℚ

/-- A fitted unsupervised detector (IsolationForest, LocalOutlierFactor or
DBSCAN).  The fitted object is an opaque external artifact; the only use
`run_complete_analysis` makes of it is the per-row anomaly flags it yields on
a feature matrix (`predictions == -1` resp. noise labels), so the embedding
carries exactly that function. -/
structure FittedDetector where
  flags : List (List ℚ) → List Bool

/-- One entry of `self.models` as `train_all_models` stores it: the fitted
model, the shared scaler (opaque here), and the cached scaled training matrix
under key `X_scaled`.  `X_scaled := none` models the dictionary lacking the
`X_scaled` key. -/
structure ModelEntry where
  model : FittedDetector
  scaler : Unit
  X_scaled : Option (List (List ℚ))

/-- The mutable state of an `AnomalyDetector` instance that persistence
touches: `self.models`, `self.thresholds`, `self.feature_columns`. -/
structure DetectorState where
  models : List (String × ModelEntry)
  thresholds : List (String × FeatureThresholds)
  feature_columns : List String

/-- One entry of the saved `models` dictionary: `save_models` keeps only the
`model` and `scaler` keys ("remove X_scaled as it is not needed for
inference", anomaly_detector.py lines 428-434). -/
structure SavedModelEntry where
  model : FittedDetector
  scaler : Unit

/-- The `save_data` dictionary written by `save_models`
(anomaly_detector.py lines 436-440). -/
structure SaveData where
  models : List (String × SavedModelEntry)
  thresholds : List (String × FeatureThresholds)
  feature_columns : List String

/-- `save_models`: strip `X_scaled` from every model entry and bundle the
thresholds and feature columns (anomaly_detector.py lines 419-443; joblib
serialization itself round-trips the object graph identically). -/
def save_models (st : DetectorState) : SaveData :=
  { models := st.models.map fun kv =>
      (kv.1, { model := kv.2.model, scaler := kv.2.scaler }),
    thresholds := st.thresholds,
    feature_columns := st.feature_columns }

/-- `load_models`: restore exactly the saved dictionaries
(anomaly_detector.py lines 445-459).  A restored model entry has no
`X_scaled` key. -/
def load_models (sd : SaveData) : DetectorState :=
  { models := sd.models.map fun kv =>
      (kv.1, { model := kv.2.model, scaler := kv.2.scaler, X_scaled := none }),
    thresholds := sd.thresholds,
    feature_columns := sd.feature_columns }

/-- One input row for statistical detection: feature name to value, `none`
standing for a missing (NaN) value. -/
def FeatureRow : Type := List (String × Option ℚ)

/-- The `anomaly_score` computed for one row by
`detect_statistical_anomalies(threshold_std=2)`: the number of feature
columns that have stored thresholds, are present and non-NaN in the row,
and fall outside the 2-sigma band (anomaly_detector.py lines 151-169). -/
def statRowScore (st : DetectorState) (row : FeatureRow) : ℕ :=
  (st.feature_columns.filter fun f =>
    match st.thresholds.lookup f, (List.lookup f row).join with
    | some th, some v =>
        decide (v > th.threshold_2std ∨ v < th.threshold_minus_2std)
    | _, _ => false).length

/-- The consensus counter of `run_complete_analysis` (anomaly_detector.py
lines 379-381): among the boolean flag columns of `df_final`, keep those
whose NAME ends with the string `_is_anomaly`, and sum their values for the
row. -/
def consensusTrueCount (cols : List (String × Bool)) : ℕ :=
  ((cols.filter fun c => pyEndsWith c.1 "_is_anomaly").filter fun c => c.2).length

/-- The boolean flag columns of `df_final` for one row when the three
detectors of `train_all_models` are trained: statistical detection stores its
flag in column `is_anomaly` (line 174), each ML detector in
`{model_name}_is_anomaly` (line 295/304/311).  The other columns of
`df_final` (raw and engineered features, scores, reason strings) are not
boolean flags and none of their names ends in `_is_anomaly`. -/
def flagColumns (stat isoF lof dbs : Bool) : List (String × Bool) :=
  [("is_anomaly", stat),
   ("isolation_forest_is_anomaly", isoF),
   ("local_outlier_factor_is_anomaly", lof),
   ("dbscan_is_anomaly", dbs)]

/-- Column `consensus_anomaly` of `run_complete_analysis` for a row with the
given four per-method flags (anomaly_detector.py line 381). -/
def consensus_anomaly (stat isoF lof dbs : Bool) : ℕ :=
  consensusTrueCount (flagColumns stat isoF lof dbs)

/-- Column `is_consensus_anomaly`: `consensus_anomaly >= 2`
(anomaly_detector.py line 382). -/
def is_consensus_anomaly (stat isoF lof dbs : Bool) : Bool :=
  decide (2 ≤ consensus_anomaly stat isoF lof dbs)

/-- The consensus rule as the spec words it: a row is a consensus anomaly iff
at least 2 of the 4 independent per-method flags (statistical,
isolation-style, density-style, clustering-style) are true.  Written from the
spec, to be compared against `is_consensus_anomaly`. -/
def specConsensusAtLeast2Of4 (stat isoF lof dbs : Bool) : Bool :=
  decide (2 ≤ ([stat, isoF, lof, dbs].filter fun b => b).length)

/-- Reading `model_info[X_scaled]` for one stored model inside
`run_complete_analysis` (line 375): a `KeyError` if the entry lacks the key,
otherwise the fitted detector's flags on that cached matrix
(`detect_ml_anomalies`, lines 288-311). -/
def mlFlagsOfEntry (e : ModelEntry) : Except String (List Bool) :=
  match e.X_scaled with
  | some m => .ok (e.model.flags m)
  | none => .error "KeyError: X_scaled"

/-- The per-row output columns of `run_complete_analysis`. -/
structure RowVerdict where
  anomaly_score : ℕ
  is_anomaly : Bool
  consensus_anomaly : ℕ
  is_consensus_anomaly : Bool
deriving DecidableEq

/-- `run_complete_analysis` (anomaly_detector.py lines 353-387): statistical
detection at 2 sigma, then each stored detector's flags on its cached
`X_scaled` matrix, then the consensus over the columns whose name ends in
`_is_anomaly`. -/
def run_complete_analysis (st : DetectorState) (rows : List FeatureRow) :
    Except String (List RowVerdict) := do
  let mlCols ← st.models.mapM fun kv => do
    let fl ← mlFlagsOfEntry kv.2
    pure (kv.1 ++ "_is_anomaly", fl)
  pure ((List.range rows.length).map fun i =>
    let sc := statRowScore st (rows.getD i [])
    let cols := ("is_anomaly", decide (0 < sc)) ::
      mlCols.map fun c => (c.1, c.2.getD i false)
    let consensus := consensusTrueCount cols
    { anomaly_score := sc
      is_anomaly := decide (0 < sc)
      consensus_anomaly := consensus
      is_consensus_anomaly := decide (2 ≤ consensus) })

/-- A concrete fitted detector for evaluating the round-trip claim: flags
every row of the matrix. -/
def det0 : FittedDetector := ⟨fun m => m.map fun _ => true⟩

/-- A concrete trained `DetectorState` with one stored model whose cached
`X_scaled` matrix is present, one threshold entry and one feature column. -/
def st0 : DetectorState :=
  { models := [("isolation_forest",
      { model := det0, scaler := (), X_scaled := some [[0]] })],
    thresholds := [("Engine Hours/Day",
      { mean := 0, std := 0, threshold_2std := 2, threshold_minus_2std := -2,
        threshold_3std := 3, threshold_minus_3std := -3 })],
    feature_columns := ["Engine Hours/Day"] }

/-- A concrete one-row input for `run_complete_analysis`. -/
def rows0 : List FeatureRow := [[("Engine Hours/Day", some 1)]]

end AnomalyDetector

namespace DemandForecaster

/-- One rental record as `DemandForecaster.load_and_transform_data` reads it:
site id, equipment type and the two interval endpoints (`Expected Check-Out
Date`, `Check-In Date`) as day numbers. -/
structure RentalRow where
  site : String
  ty : String
  checkOut : ℕ
  checkIn : ℕ
deriving DecidableEq

/-- Minimum of a column (pandas `Series.min` over a nonempty column; 0 on an
empty one, which the claims never hit). -/
def minimumD : List ℕ → ℕ
  | [] => 0
  | x :: xs => xs.foldl min x

/-- Maximum of a column (pandas `Series.max`). -/
def maximumD : List ℕ → ℕ
  | [] => 0
  | x :: xs => xs.foldl max x

/-- `pd.date_range(start=min checkOut, end=max checkIn, freq=D)`
(demand_forecaster.py lines 51-53): every day from the earliest check-out to
the latest check-in, inclusive. -/
def dateRange (df : List RentalRow) : List ℕ :=
  let s := minimumD (df.map fun r => r.checkOut)
  let e := maximumD (df.map fun r => r.checkIn)
  List.range' s (e + 1 - s)

/-- pandas `Series.unique`: the distinct values in order of first
occurrence. -/
def uniques : List String → List String
  | [] => []
  | x :: xs => x :: uniques (xs.filter fun y => y != x)
termination_by l => l.length
decreasing_by
  simpa using Nat.lt_succ_of_le (List.length_filter_le _ xs)

/-- The `active_rentals` count of the triple loop (demand_forecaster.py
lines 63-68): records of the given site and type whose interval covers the
date (`check_out <= date` and `check_in >= date`). -/
def activeCount (df : List RentalRow) (d : ℕ) (s t : String) : ℕ :=
  (df.filter fun r =>
    decide (r.checkOut ≤ d) && decide (d ≤ r.checkIn)
      && (r.site == s) && (r.ty == t)).length

/-- One row of the transformed time series (`Date`, `Site_ID`, `Type`,
`Active_Rentals`). -/
structure DemandPoint where
  date : ℕ
  site : String
  ty : String
  Active_Rentals : ℕ
deriving DecidableEq

/-- One row appended by the triple loop of `load_and_transform_data`
(demand_forecaster.py lines 70-75). -/
def demandPoint (df : List RentalRow) (d : ℕ) (s t : String) : DemandPoint :=
  { date := d, site := s, ty := t, Active_Rentals := activeCount df d s t }

/-- `load_and_transform_data` (demand_forecaster.py lines 34-88): for every
date of the full range and every observed site and every observed equipment
type, one row with the interval-overlap count; finally a stable sort by
date. -/
def load_and_transform_data (df : List RentalRow) : List DemandPoint :=
  ((dateRange df).flatMap fun d =>
    (uniques (df.map fun r => r.site)).flatMap fun s =>
      (uniques (df.map fun r => r.ty)).flatMap fun t =>
        [demandPoint df d s t]).mergeSort
    fun p q => decide (p.date ≤ q.date)

/-- Column `Lag_k` of `engineer_features` on one date-sorted (site, type)
partition `xs`: `shift(k)` followed by `fillna(0)` (demand_forecaster.py
lines 133-135 and 142-144), so position `i` holds `xs[i-k]` when `k ≤ i`
and `0` before that. -/
def Lag (xs : List ℚ) (k i : ℕ) : ℚ :=
  if k ≤ i then xs.getD (i - k) 0 else 0

/-- The trailing window of `rolling(7, min_periods=1)` at position `i`: the
last `min(i+1, 7)` values up to AND including position `i`. -/
def rollingWindow7 (xs : List ℚ) (i : ℕ) : List ℚ :=
  (xs.take (i + 1)).drop (i + 1 - 7)

/-- Column `MovingAvg_7`: `rolling(7, min_periods=1).mean()`
(demand_forecaster.py line 138). -/
def MovingAvg_7 (xs : List ℚ) (i : ℕ) : ℚ :=
  (rollingWindow7 xs i).sum / (rollingWindow7 xs i).length

/-- Column `MovingStd_7` squared: `rolling(7, min_periods=1).std()` computes
the sample standard deviation of the same trailing window (NaN on a
one-element window, then `fillna(0)`, line 146).  The square root is
irrational in general, so the embedding carries the sample variance; the
window it reads is the point the claims are about. -/
def MovingVar_7 (xs : List ℚ) (i : ℕ) : ℚ :=
  let w := rollingWindow7 xs i
  if w.length ≤ 1 then 0
  else (w.map fun x => (x - w.sum / w.length) ^ 2).sum / ((w.length : ℚ) - 1)

/-- The no-lookahead invariant as the spec words it, instantiated to the
rolling mean: a lag or rolling field at position `i` of a date-sorted
partition is computed strictly from rows with earlier dates, so two
partitions that agree strictly before `i` must agree on the field at `i`.
Written from the spec, to be compared against `MovingAvg_7`. -/
def specRollingUsesOnlyEarlierRows : Prop :=
  ∀ (xs ys : List ℚ) (i : ℕ), i < xs.length → i < ys.length →
    xs.take i = ys.take i → MovingAvg_7 xs i = MovingAvg_7 ys i

/-- One engineered time-series row of a (site, type) segment as
`prepare_training_data` sees it: its date, and whether the row survives
`dropna()` (no missing value in any engineered column). -/
structure SegRow where
  date : ℕ
  clean : Bool
deriving DecidableEq

/-- `site_data.dropna()` (demand_forecaster.py line 186). -/
def dropna (rows : List SegRow) : List SegRow :=
  rows.filter fun r => r.clean

/-- `prepare_training_data` for one (site, type) segment
(demand_forecaster.py lines 164-200): refuse a segment with fewer than 50
raw rows, drop rows with missing values, refuse fewer than 30 clean rows,
otherwise split chronologically at `int(len * 0.8)` (exactly `4*len/5` for
the row counts at hand).  The split is returned as the (train, test) row
lists. -/
def prepare_training_data (rows : List SegRow) :
    Option (List SegRow × List SegRow) :=
  if rows.length < 50 then none
  else
    let c := dropna rows
    if c.length < 30 then none
    else
      let splitIdx := c.length * 4 / 5
      some (c.take splitIdx, c.drop splitIdx)

/-- `train_all_models` (demand_forecaster.py lines 258-324): the model keys
stored in `self.models` are exactly the segments whose
`prepare_training_data` does not report insufficient data. -/
def train_all_models_keys (segs : List (String × List SegRow)) : List String :=
  (segs.filter fun kv => (prepare_training_data kv.2).isSome).map fun kv => kv.1

/-- A concrete segment of 31 raw rows, none with missing values, with
distinct dates. -/
def seg31 : List SegRow := (List.range 31).map fun n => { date := n, clean := true }

/-- A concrete segment of 50 raw rows, none with missing values, with
strictly increasing dates. -/
def seg50 : List SegRow := (List.range 50).map fun n => { date := n, clean := true }

/-- A concrete two-record snapshot: two overlapping Excavator rentals at site
S1, days 0-2 and 1-3. -/
def dfW : List RentalRow :=
  [{ site := "S1", ty := "Excavator", checkOut := 0, checkIn := 2 },
   { site := "S1", ty := "Excavator", checkOut := 1, checkIn := 3 }]

end DemandForecaster

namespace SmartML

/-- One preprocessed record of `SmartMLSystem.data`: the `User ID` column
(site assignment, `UNASSIGNED` after `fillna`) and the `Type` column.  The
forecast gate, the realism constraints and the confidence score read only
these two columns of the filtered frame, besides its length. -/
structure MLRec where
  userId : String
  ty : String
deriving DecidableEq

/-- The filtering step of `forecast_demand` (smart_ml_system.py lines
333-338): restrict to the requested equipment type when one is given, then
to the requested site when one is given and is not `UNASSIGNED`.  A falsy
(empty) Python argument is modelled as `none`. -/
def forecast_filter (data : List MLRec) (ty? site? : Option String) :
    List MLRec :=
  let f1 := match ty? with
    | some t => data.filter fun r => r.ty == t
    | none => data
  match site? with
  | some s => if s = "UNASSIGNED" then f1 else f1.filter fun r => r.userId == s
  | none => f1

/-- The site-capacity step of `_apply_realistic_constraints`
(smart_ml_system.py lines 452-456): when a real site is requested and it has
matching rows, lower `max_demand` to at most `2x` that row count. -/
def cap_site (maxDemand : ℚ) (filtered : List MLRec) (site? : Option String) : ℚ :=
  match site? with
  | some s =>
      if s = "UNASSIGNED" then maxDemand
      else
        let siteEquipment := filtered.filter fun r => r.userId == s
        if 0 < siteEquipment.length then
          min maxDemand ((siteEquipment.length : ℚ) * 2)
        else maxDemand
  | none => maxDemand

/-- The equipment-type capacity step of `_apply_realistic_constraints`
(smart_ml_system.py lines 458-462): lower `max_demand` to at most `1.5x` the
rows of the requested type. -/
def cap_equipment (maxDemand : ℚ) (filtered : List MLRec) (ty? : Option String) : ℚ :=
  match ty? with
  | some t =>
      let equipmentData := filtered.filter fun r => r.ty == t
      if 0 < equipmentData.length then
        min maxDemand ((equipmentData.length : ℚ) * (3 / 2))
      else maxDemand
  | none => maxDemand

/-- `_apply_realistic_constraints` (smart_ml_system.py lines 445-475):
`max_demand` starts at the hard cap 20 and is then only ever lowered by the
site-capacity and equipment-type capacity steps; the weekend factor `0.6` and
the winter factor `0.8` multiply the prediction; the result is
`max(0, min(max_demand, prediction))`.  `weekday` is Python's
`date.weekday()` (0 = Monday), `month` is 1-12. -/
def apply_realistic_constraints (pred : ℚ) (weekday month : ℕ)
    (filtered : List MLRec) (ty? site? : Option String) : ℚ :=
  let maxDemand := cap_equipment (cap_site 20 filtered site?) filtered ty?
  let pred1 := if 5 ≤ weekday then pred * (3 / 5) else pred
  let pred2 := if month = 12 ∨ month = 1 ∨ month = 2 then pred1 * (4 / 5) else pred1
  max 0 (min maxDemand pred2)

/-- The data-availability factor of `_calculate_forecast_confidence`
(smart_ml_system.py lines 482-491), tiered by the filtered row count. -/
def data_factor (n : ℕ) : ℚ :=
  if 100 ≤ n then 1 else if 50 ≤ n then 9 / 10 else if 20 ≤ n then 4 / 5 else 3 / 5

/-- The site-specificity factor (smart_ml_system.py lines 493-502). -/
def site_factor (filtered : List MLRec) (site? : Option String) : ℚ :=
  match site? with
  | some s =>
      if s = "UNASSIGNED" then 1
      else
        let m := (filtered.filter fun r => r.userId == s).length
        if 10 ≤ m then 1 else if 5 ≤ m then 9 / 10 else 7 / 10
  | none => 1

/-- The equipment-type-specificity factor (smart_ml_system.py lines
504-513). -/
def equipment_factor (filtered : List MLRec) (ty? : Option String) : ℚ :=
  match ty? with
  | some t =>
      let m := (filtered.filter fun r => r.ty == t).length
      if 20 ≤ m then 1 else if 10 ≤ m then 9 / 10 else 4 / 5
  | none => 1

/-- The time-distance decay factor (smart_ml_system.py lines 515-517):
`max(0.5, 1 - days_from_last * 0.01)`. -/
def time_factor (daysFromLast : ℕ) : ℚ :=
  max (1 / 2) (1 - (daysFromLast : ℚ) * (1 / 100))

/-- `_calculate_forecast_confidence` (smart_ml_system.py lines 477-522):
the product of the base constant 0.7 and the four factors, clamped into
[0.3, 0.95]. -/
def calculate_forecast_confidence (filtered : List MLRec)
    (ty? site? : Option String) (daysFromLast : ℕ) : ℚ :=
  min (19 / 20) (max (3 / 10)
    ((7 / 10) * data_factor filtered.length * site_factor filtered site?
      * equipment_factor filtered ty? * time_factor daysFromLast))

/-- `forecast_demand` (smart_ml_system.py lines 327-404), up to the returned
per-day series of (predicted demand, confidence) pairs.  The fitted
regressors are opaque external artifacts, so their raw day-`i` predictions
enter as the function parameters `globalPredict` and `sitePredict`;
`siteModelSites` is the key set of `self.site_specific_models`; `dayFacts i`
gives the (weekday, month) calendar facts of the future date
`last_date + i + 1`.  The day-`i` time distance from the last observed
check-out date is `i + 1`. -/
def forecast_demand (modelsTrained : Bool) (data : List MLRec)
    (ty? site? : Option String) (daysAhead : ℕ)
    (globalPredict sitePredict : ℕ → ℚ) (siteModelSites : List String)
    (dayFacts : ℕ → ℕ × ℕ) : Except String (List (ℚ × ℚ)) :=
  if modelsTrained = false then .error "Models not trained"
  else
    let filtered := forecast_filter data ty? site?
    if filtered.length = 0 then .error "No data found for the specified parameters"
    else
      .ok ((List.range daysAhead).map fun i =>
        let wd := (dayFacts i).1
        let mo := (dayFacts i).2
        let raw :=
          match site?, ty? with
          | some s, some _ =>
              if s ∈ siteModelSites then sitePredict i else globalPredict i
          | _, _ => globalPredict i
        let constrained := apply_realistic_constraints raw wd mo filtered ty? site?
        (pyRound (max 0 constrained) 1,
         pyRound (calculate_forecast_confidence filtered ty? site? (i + 1)) 2))

/-- The spec's error contract for `forecast`, written from the spec: a
SegmentNotFoundError-style result is returned only when no global fallback
model exists for the request.  In `SmartMLSystem` the global
`demand_forecaster` exists exactly when training succeeded
(`models_trained = true`), so on a trained system `forecast_demand` must
never return an error result. -/
def specErrorOnlyWithoutGlobalModel : Prop :=
  ∀ (data : List MLRec) (ty? site? : Option String) (daysAhead : ℕ)
    (gp sp : ℕ → ℚ) (sms : List String) (df : ℕ → ℕ × ℕ) (msg : String),
      forecast_demand true data ty? site? daysAhead gp sp sms df ≠ .error msg

/-- One row of `clean_data` as `_train_models` splits it: its `Check-Out
Date` as a day number (the feature payload is irrelevant to the split
invariant). -/
structure TrainRow where
  checkOutDay : ℕ
deriving DecidableEq

/-- Modelled from the documented semantics of
`sklearn.model_selection.train_test_split(X, y, test_size=0.2,
random_state=42)` as called at smart_ml_system.py line 185: with its default
`shuffle=True` the seeded RNG draws a permutation `pi` of the row indices,
the first `ceil(n/5)` entries of `pi` select the test rows and the remaining
entries the training rows.  The RNG stream is external to the repository, so
the permutation is a parameter of the embedding; the split the source
performs is this function at the (unknown) seed-42 permutation. -/
def train_test_split (pi : List ℕ) (rows : List TrainRow) :
    List TrainRow × List TrainRow :=
  let nTest := (rows.length + 4) / 5
  ((pi.drop nTest).filterMap fun j => rows[j]?,
   (pi.take nTest).filterMap fun j => rows[j]?)

/-- The chronological-split invariant the spec asserts: both parts nonempty
and every training date strictly earlier than every test date
(`max(train_dates) < min(test_dates)`). -/
def chronoSplit (p : List TrainRow × List TrainRow) : Prop :=
  p.1 ≠ [] ∧ p.2 ≠ [] ∧ ∀ a ∈ p.1, ∀ b ∈ p.2, a.checkOutDay < b.checkOutDay

/-- The claim that the enhanced model's split of a given snapshot is
chronological, for the embedded `train_test_split` at whatever permutation
the external seeded RNG yields: since the seed-42 stream is outside the
embedding, the property must hold for every permutation of the row
indices. -/
def enhancedSplitChronologicalAt (rows : List TrainRow) : Prop :=
  ∀ pi : List ℕ, pi.Perm (List.range rows.length) →
    chronoSplit (train_test_split pi rows)

/-- A concrete 50-row snapshot in which every rental has the same check-out
date (such snapshots pass the `len >= 50` training gate of
`_train_models`). -/
def snap50 : List TrainRow := (List.range 50).map fun _ => { checkOutDay := 0 }

end SmartML

open AnomalyDetector DemandForecaster SmartML

/-- Rounding to the nearest integer respects an integer upper bound. -/
theorem pyRoundInt_le {s : ℚ} {m : ℤ} (h : s ≤ (m : ℚ)) : pyRoundInt s ≤ m := by
  have hfl : ((⌊s⌋ : ℚ)) ≤ s := Int.floor_le s
  have hm : ⌊s⌋ ≤ m := by exact_mod_cast le_trans hfl h
  unfold pyRoundInt
  rcases lt_or_eq_of_le hm with hlt | heq
  · split_ifs <;> omega
  · have hcast : ((⌊s⌋ : ℚ)) = (m : ℚ) := by exact_mod_cast heq
    split_ifs with h1 h2
    · linarith
    · omega
    · omega
    · linarith

/-- Rounding to the nearest integer respects an integer lower bound. -/
theorem le_pyRoundInt {s : ℚ} {m : ℤ} (h : (m : ℚ) ≤ s) : m ≤ pyRoundInt s := by
  have hm : m ≤ ⌊s⌋ := Int.le_floor.mpr h
  unfold pyRoundInt
  split_ifs <;> omega

/-- Rounding can only move a scaled value down to an integer bound it already
respects: if `q * 10^n ≤ m` then `pyRound q n ≤ m / 10^n`. -/
theorem pyRound_le {q : ℚ} {n : ℕ} {m : ℤ} (h : q * 10 ^ n ≤ (m : ℚ)) :
    pyRound q n ≤ (m : ℚ) / 10 ^ n := by
  unfold pyRound
  have hpow : (0 : ℚ) < 10 ^ n := by positivity
  have hr : pyRoundInt (q * 10 ^ n) ≤ m := pyRoundInt_le h
  have hr2 : ((pyRoundInt (q * 10 ^ n) : ℤ) : ℚ) ≤ (m : ℚ) := by exact_mod_cast hr
  exact div_le_div_of_nonneg_right hr2 hpow.le |>.trans_eq rfl

/-- Rounding cannot fall below an integer bound the scaled value already
respects: if `m ≤ q * 10^n` then `m / 10^n ≤ pyRound q n`. -/
theorem le_pyRound {q : ℚ} {n : ℕ} {m : ℤ} (h : (m : ℚ) ≤ q * 10 ^ n) :
    (m : ℚ) / 10 ^ n ≤ pyRound q n := by
  unfold pyRound
  have hpow : (0 : ℚ) < 10 ^ n := by positivity
  have hr : m ≤ pyRoundInt (q * 10 ^ n) := le_pyRoundInt h
  have hr2 : ((m : ℤ) : ℚ) ≤ ((pyRoundInt (q * 10 ^ n) : ℤ) : ℚ) := by exact_mod_cast hr
  exact div_le_div_of_nonneg_right hr2 hpow.le |>.trans_eq rfl

/-- C1 counterexample.  A row flagged by the statistical method and by exactly
one ML detector is a consensus anomaly under the spec's at-least-2-of-4 rule,
but `run_complete_analysis` does not report it: its consensus sums only the
columns whose name ends in `_is_anomaly`, and the statistical flag lives in
column `is_anomaly`, which lacks the leading underscore of the suffix. -/
theorem C1_counterexample :
    specConsensusAtLeast2Of4 true true false false = true
    ∧ is_consensus_anomaly true true false false = false := by
  decide

/-- C1, amended.  A row processed by the complete anomaly analysis is reported
as a consensus anomaly iff at least 2 of the 3 ML flags (isolation-style,
density-style, clustering-style) are true; the statistical flag is never
counted, because the suffix filter `endswith("_is_anomaly")` does not match
its column name `is_anomaly`. -/
theorem C1_consensus_counts_only_ml_flags (stat isoF lof dbs : Bool) :
    is_consensus_anomaly stat isoF lof dbs
      = decide (2 ≤ ([isoF, lof, dbs].filter fun b => b).length) := by
  cases stat <;> cases isoF <;> cases lof <;> cases dbs <;> rfl

/-- C6.  For every engineered usage row with nonnegative hours: when
`Total_Hours > 0` the two ratios sum to `Total/(Total+eps)`, which is within
`eps / Total_Hours` below 1 and strictly below 1; when `Total_Hours = 0` both
ratios are exactly 0; and the shared denominator is strictly positive, so the
computation never divides by zero. -/
theorem C6_ratio_contract (r : UsageRecord)
    (he : 0 ≤ r.engineHoursPerDay) (hi : 0 ≤ r.idleHoursPerDay) :
    (0 < Total_Hours r →
        Idle_Ratio r + Utilization_Efficiency r
            = Total_Hours r / (Total_Hours r + epsGuard)
          ∧ 1 - epsGuard / Total_Hours r
              ≤ Idle_Ratio r + Utilization_Efficiency r
          ∧ Idle_Ratio r + Utilization_Efficiency r < 1)
      ∧ (Total_Hours r = 0 → Idle_Ratio r = 0 ∧ Utilization_Efficiency r = 0)
      ∧ 0 < Total_Hours r + epsGuard := by
  have hT : Total_Hours r = r.engineHoursPerDay + r.idleHoursPerDay := rfl
  have heps : (0 : ℚ) < epsGuard := by norm_num [epsGuard]
  refine ⟨?_, ?_, by linarith⟩
  · intro hpos
    have hden : (0 : ℚ) < Total_Hours r + epsGuard := by linarith
    have hsum : Idle_Ratio r + Utilization_Efficiency r
        = Total_Hours r / (Total_Hours r + epsGuard) := by
      unfold Idle_Ratio Utilization_Efficiency Total_Hours
      rw [div_add_div_same]
      ring_nf
    refine ⟨hsum, ?_, ?_⟩
    · rw [hsum]
      have h1 : 1 - epsGuard / Total_Hours r
          = (Total_Hours r - epsGuard) / Total_Hours r := by
        field_simp
      rw [h1, div_le_div_iff hpos hden]
      nlinarith [mul_self_nonneg epsGuard]
    · rw [hsum, div_lt_one hden]
      linarith
  · intro h0
    have h1 : r.engineHoursPerDay + r.idleHoursPerDay = 0 := by rw [← hT]; exact h0
    have he0 : r.engineHoursPerDay = 0 := by linarith
    have hi0 : r.idleHoursPerDay = 0 := by linarith
    constructor
    · unfold Idle_Ratio
      rw [hi0, zero_div]
    · unfold Utilization_Efficiency
      rw [he0, zero_div]

/-- C6 witness: the contract evaluated on the concrete record with 6 engine
hours and 2 idle hours per day. -/
theorem C6_witness :
    0 < Total_Hours ⟨6, 2⟩
    ∧ Idle_Ratio ⟨6, 2⟩ + Utilization_Efficiency ⟨6, 2⟩ < 1 :=
  ⟨by norm_num [Total_Hours], ((C6_ratio_contract ⟨6, 2⟩ (by norm_num)
    (by norm_num)).1 (by norm_num [Total_Hours])).2.2⟩

/-- C2 counterexample.  A segment of 31 history rows, every one of them clean
(no missing engineered features), is nevertheless skipped by
`prepare_training_data`: the raw-count gate `len(site_data) < 50` rejects it
before the 30-clean-row check is reached, while the claim says a segment with
31 clean rows is trained. -/
theorem C2_counterexample :
    (dropna seg31).length = 31 ∧ prepare_training_data seg31 = none := by
  constructor
  · decide
  · decide

/-- C2, amended.  A (site, equipment_type) segment is skipped exactly when it
has fewer than 50 raw history rows or fewer than 30 rows after removing rows
with missing engineered features; in particular a segment with exactly 29
clean rows is always skipped, and a segment with 31 clean rows is trained
(and its key is stored in the model set) iff it also has at least 50 raw
rows, in which case the data is split at `int(0.8 * len)`. -/
theorem C2_skip_conditions (rows : List SegRow) :
    (prepare_training_data rows = none ↔
        rows.length < 50 ∨ (dropna rows).length < 30)
      ∧ ((dropna rows).length = 29 → prepare_training_data rows = none)
      ∧ (50 ≤ rows.length → 31 ≤ (dropna rows).length →
          prepare_training_data rows
            = some ((dropna rows).take ((dropna rows).length * 4 / 5),
                    (dropna rows).drop ((dropna rows).length * 4 / 5)))
      ∧ (∀ key : String, key ∈ train_all_models_keys [(key, rows)]
          ↔ (prepare_training_data rows).isSome = true) := by
  have hkeys : ∀ key : String, key ∈ train_all_models_keys [(key, rows)]
      ↔ (prepare_training_data rows).isSome = true := by
    intro key
    by_cases hp : (prepare_training_data rows).isSome = true <;>
      simp [train_all_models_keys, hp]
  by_cases h1 : rows.length < 50
  · refine ⟨by simp [prepare_training_data, h1], fun _ => by simp [prepare_training_data, h1],
      fun h50 => absurd h50 (by omega), hkeys⟩
  · by_cases h2 : (dropna rows).length < 30
    · refine ⟨by simp [prepare_training_data, h1, h2],
        fun _ => by simp [prepare_training_data, h1, h2],
        fun _ h31 => absurd h31 (by omega), hkeys⟩
    · refine ⟨by simp [prepare_training_data, h1, h2],
        fun h29 => absurd h29 (by omega),
        fun _ _ => by simp [prepare_training_data, h1, h2], hkeys⟩

/-- C2 witness: the 50-row all-clean segment passes both gates and is split
at row 40. -/
theorem C2_witness :
    prepare_training_data seg50
      = some ((dropna seg50).take ((dropna seg50).length * 4 / 5),
              (dropna seg50).drop ((dropna seg50).length * 4 / 5)) :=
  (C2_skip_conditions seg50).2.2.1 (by decide) (by decide)

/-- The site-capacity step never raises the running cap. -/
theorem cap_site_le (md : ℚ) (filtered : List MLRec) (site? : Option String) :
    cap_site md filtered site? ≤ md := by
  rcases site? with _ | s
  · simp [cap_site]
  · by_cases hu : s = "UNASSIGNED"
    · simp [cap_site, hu]
    · by_cases hl : 0 < (filtered.filter fun r => r.userId == s).length
      · simp [cap_site, hu, hl, min_le_left]
      · simp [cap_site, hu, hl]

/-- The site-capacity step preserves nonnegativity of the running cap. -/
theorem cap_site_nonneg {md : ℚ} (hmd : 0 ≤ md) (filtered : List MLRec)
    (site? : Option String) : 0 ≤ cap_site md filtered site? := by
  rcases site? with _ | s
  · simpa [cap_site] using hmd
  · by_cases hu : s = "UNASSIGNED"
    · simpa [cap_site, hu] using hmd
    · by_cases hl : 0 < (filtered.filter fun r => r.userId == s).length
      · simp only [cap_site, hu, if_false, hl, if_true]
        exact le_min hmd (by positivity)
      · simpa [cap_site, hu, hl] using hmd

/-- The equipment-type capacity step never raises the running cap. -/
theorem cap_equipment_le (md : ℚ) (filtered : List MLRec) (ty? : Option String) :
    cap_equipment md filtered ty? ≤ md := by
  rcases ty? with _ | t
  · simp [cap_equipment]
  · by_cases hl : 0 < (filtered.filter fun r => r.ty == t).length
    · simp [cap_equipment, hl, min_le_left]
    · simp [cap_equipment, hl]

/-- The equipment-type capacity step preserves nonnegativity. -/
theorem cap_equipment_nonneg {md : ℚ} (hmd : 0 ≤ md) (filtered : List MLRec)
    (ty? : Option String) : 0 ≤ cap_equipment md filtered ty? := by
  rcases ty? with _ | t
  · simpa [cap_equipment] using hmd
  · by_cases hl : 0 < (filtered.filter fun r => r.ty == t).length
    · simp only [cap_equipment, hl, if_true]
      exact le_min hmd (by positivity)
    · simpa [cap_equipment, hl] using hmd

/-- C10.  Whatever the raw model prediction, the calendar facts, the filtered
snapshot and the requested segment, the demand returned by the realism
constraints lies in [0, 20]: the capacity caps only ever lower the initial
hard cap of 20, and the rounded value reported by `forecast_demand` also
never exceeds 20 units. -/
theorem C10_hard_cap (pred : ℚ) (weekday month : ℕ) (filtered : List MLRec)
    (ty? site? : Option String) :
    0 ≤ apply_realistic_constraints pred weekday month filtered ty? site?
    ∧ apply_realistic_constraints pred weekday month filtered ty? site? ≤ 20
    ∧ pyRound (max 0 (apply_realistic_constraints pred weekday month filtered ty? site?)) 1 ≤ 20 := by
  have hs1 : cap_site 20 filtered site? ≤ 20 := cap_site_le 20 filtered site?
  have hs0 : 0 ≤ cap_site 20 filtered site? := cap_site_nonneg (by norm_num) filtered site?
  have he1 : cap_equipment (cap_site 20 filtered site?) filtered ty? ≤ cap_site 20 filtered site? :=
    cap_equipment_le _ filtered ty?
  have he0 : 0 ≤ cap_equipment (cap_site 20 filtered site?) filtered ty? :=
    cap_equipment_nonneg hs0 filtered ty?
  have hres : apply_realistic_constraints pred weekday month filtered ty? site? ≤ 20 := by
    unfold apply_realistic_constraints
    refine max_le (by norm_num) ?_
    calc min (cap_equipment (cap_site 20 filtered site?) filtered ty?) _
        ≤ cap_equipment (cap_site 20 filtered site?) filtered ty? := min_le_left _ _
      _ ≤ 20 := le_trans he1 hs1
  have hres0 : 0 ≤ apply_realistic_constraints pred weekday month filtered ty? site? := by
    unfold apply_realistic_constraints
    exact le_max_left 0 _
  refine ⟨hres0, hres, ?_⟩
  have hmax : max 0 (apply_realistic_constraints pred weekday month filtered ty? site?) ≤ 20 :=
    max_le (by norm_num) hres
  have hscale : max 0 (apply_realistic_constraints pred weekday month filtered ty? site?) * 10 ^ 1
      ≤ ((200 : ℤ) : ℚ) := by
    push_cast
    nlinarith [hmax]
  have := pyRound_le hscale
  calc pyRound (max 0 (apply_realistic_constraints pred weekday month filtered ty? site?)) 1
      ≤ ((200 : ℤ) : ℚ) / 10 ^ 1 := this
    _ = 20 := by norm_num





/-- C3 counterexample.  The global/enhanced model of `smart_ml_system` is
trained on a split produced by sklearn `train_test_split` with its default
shuffle; for the concrete 50-row snapshot in which every rental shares one
check-out date, no permutation the seeded RNG could draw yields a
chronological split with `max(train_dates) < min(test_dates)`, so the claim
fails at this input whatever the external seed-42 permutation is. -/
theorem C3_counterexample : ¬ enhancedSplitChronologicalAt snap50 := by
  intro h
  have hlen : snap50.length = 50 := by decide
  have h1 := h (List.range 50) (by rw [hlen])
  obtain ⟨-, -, h3⟩ := h1
  have ha : ({ checkOutDay := 0 } : TrainRow)
      ∈ (train_test_split (List.range 50) snap50).1 := by decide
  have hb : ({ checkOutDay := 0 } : TrainRow)
      ∈ (train_test_split (List.range 50) snap50).2 := by decide
  exact lt_irrefl 0 (h3 _ ha _ hb)

/-- C3, amended.  Every per-segment model of the demand forecaster is trained
on a chronological 80/20 split with no shuffling: on a date-sorted segment the
first `int(0.8 * len)` clean rows form the training set, the rest the holdout,
both parts are nonempty, and every training date is strictly earlier than
every holdout date (so `max(train_dates) < min(test_dates)`).  The
global/enhanced model of `smart_ml_system` is instead split by sklearn's
shuffled `train_test_split` and carries no such guarantee. -/
theorem C3_segment_chronological_split (rows : List SegRow)
    (hsorted : rows.Pairwise fun a b => a.date < b.date)
    (tr te : List SegRow)
    (h : prepare_training_data rows = some (tr, te)) :
    tr = (dropna rows).take ((dropna rows).length * 4 / 5)
    ∧ te = (dropna rows).drop ((dropna rows).length * 4 / 5)
    ∧ tr ≠ [] ∧ te ≠ [] ∧ ∀ a ∈ tr, ∀ b ∈ te, a.date < b.date := by
  by_cases h1 : rows.length < 50
  · simp [prepare_training_data, h1] at h
  · by_cases h2 : (dropna rows).length < 30
    · simp [prepare_training_data, h1, h2] at h
    · have hsome : prepare_training_data rows
          = some ((dropna rows).take ((dropna rows).length * 4 / 5),
                  (dropna rows).drop ((dropna rows).length * 4 / 5)) := by
        simp [prepare_training_data, h1, h2]
      rw [hsome, Option.some.injEq, Prod.mk.injEq] at h
      obtain ⟨htr, hte⟩ := h
      subst htr
      subst hte
      have hk : 1 ≤ (dropna rows).length * 4 / 5 := by omega
      have hklt : (dropna rows).length * 4 / 5 < (dropna rows).length := by omega
      have hcs : (dropna rows).Pairwise fun a b => a.date < b.date :=
        hsorted.filter _
      refine ⟨rfl, rfl, ?_, ?_, ?_⟩
      · rw [Ne, List.take_eq_nil_iff]
        rintro (hz | hz)
        · omega
        · rw [hz] at h2
          simp at h2
      · rw [Ne, List.drop_eq_nil_iff]
        omega
      · have hsplit := List.take_append_drop ((dropna rows).length * 4 / 5) (dropna rows)
        rw [← hsplit] at hcs
        exact (List.pairwise_append.mp hcs).2.2

/-- C3 witness: the chronological split evaluated on the concrete 50-row
segment with dates 0..49, split at row 40. -/
theorem C3_witness :
    ((dropna seg50).take ((dropna seg50).length * 4 / 5)
        = (dropna seg50).take ((dropna seg50).length * 4 / 5))
    ∧ ((dropna seg50).drop ((dropna seg50).length * 4 / 5)
        = (dropna seg50).drop ((dropna seg50).length * 4 / 5))
    ∧ (dropna seg50).take ((dropna seg50).length * 4 / 5) ≠ []
    ∧ (dropna seg50).drop ((dropna seg50).length * 4 / 5) ≠ []
    ∧ ∀ a ∈ (dropna seg50).take ((dropna seg50).length * 4 / 5),
        ∀ b ∈ (dropna seg50).drop ((dropna seg50).length * 4 / 5),
          a.date < b.date :=
  C3_segment_chronological_split seg50 (by decide) _ _ (by decide)

/-- C8 counterexample.  On a trained system (so the global fallback model
exists), requesting a forecast for an equipment type with zero matching
historical rows still returns the error result, contradicting the claim that
such an error is returned only when no global fallback model exists. -/
theorem C8_counterexample : ¬ specErrorOnlyWithoutGlobalModel := by
  intro h
  exact h [{ userId := "SITE001", ty := "Excavator" }] (some "Crane") none 7
    (fun _ => 0) (fun _ => 0) [] (fun _ => (0, 1))
    "No data found for the specified parameters" rfl

/-- C8, amended.  On a trained system, `forecast_demand` returns an error
result (rather than a zero-filled forecast) exactly when the request matches
zero historical rows; the presence of the global fallback model does not
prevent the error, because the emptiness gate precedes any model use. -/
theorem C8_error_iff_empty_filter (data : List MLRec) (ty? site? : Option String)
    (daysAhead : ℕ) (gp sp : ℕ → ℚ) (sms : List String) (df : ℕ → ℕ × ℕ) :
    (∃ msg, forecast_demand true data ty? site? daysAhead gp sp sms df = .error msg)
      ↔ forecast_filter data ty? site? = [] := by
  constructor
  · rintro ⟨msg, hmsg⟩
    by_contra hne
    have hlen : ¬ (forecast_filter data ty? site?).length = 0 := by
      simpa [List.length_eq_zero] using hne
    simp [forecast_demand, hlen] at hmsg
  · intro hempty
    refine ⟨"No data found for the specified parameters", ?_⟩
    simp [forecast_demand, hempty]

/-- C7 counterexample.  The rolling-mean field is not computed strictly from
rows with earlier dates: two partitions that agree on every row before
position 1 disagree on `MovingAvg_7` at position 1, because the trailing
pandas window `rolling(7, min_periods=1)` includes the current row. -/
theorem C7_counterexample : ¬ specRollingUsesOnlyEarlierRows := by
  intro h
  have h1 := h [0, 10] [0, 0] 1 (by norm_num) (by norm_num) rfl
  rw [show MovingAvg_7 [0, 10] 1 = 5 from by
        norm_num [MovingAvg_7, rollingWindow7],
      show MovingAvg_7 [0, 0] 1 = 0 from by
        norm_num [MovingAvg_7, rollingWindow7]] at h1
  norm_num at h1

/-- C7, amended.  On a date-sorted (site, equipment_type) partition the lag
feature is exactly as claimed: `Lag_7[i] = Active_Rentals[i-7]` for `i ≥ 7`
and `0` for `i < 7`, and it reads only strictly earlier rows; the rolling
fields instead read the trailing window that includes the current row (but
never any later row). -/
theorem C7_lag_and_trailing_window (xs : List ℚ) (i : ℕ) (hi : i < xs.length) :
    (7 ≤ i → Lag xs 7 i = xs.get ⟨i - 7, lt_of_le_of_lt (Nat.sub_le i 7) hi⟩)
    ∧ (i < 7 → Lag xs 7 i = 0)
    ∧ Lag xs 7 i = Lag (xs.take i) 7 i
    ∧ MovingAvg_7 xs i = MovingAvg_7 (xs.take (i + 1)) i
    ∧ MovingVar_7 xs i = MovingVar_7 (xs.take (i + 1)) i := by
  have hwin : rollingWindow7 (xs.take (i + 1)) i = rollingWindow7 xs i := by
    unfold rollingWindow7
    rw [List.take_take]
    simp
  refine ⟨?_, ?_, ?_, ?_, ?_⟩
  · intro h7
    have hlt : i - 7 < xs.length := lt_of_le_of_lt (Nat.sub_le i 7) hi
    simp [Lag, h7, List.getD_eq_getElem?_getD, List.getElem?_eq_getElem hlt,
      List.get_eq_getElem]
  · intro h7
    simp [Lag, Nat.not_le.mpr h7]
  · by_cases h7 : 7 ≤ i
    · have hlt : i - 7 < i := by omega
      simp [Lag, h7, List.getD_eq_getElem?_getD, List.getElem?_take, hlt]
    · simp [Lag, h7]
  · unfold MovingAvg_7
    rw [hwin]
  · unfold MovingVar_7
    rw [hwin]

/-- C7 witness: the lag contract evaluated at position 7 of a concrete
9-point partition. -/
theorem C7_witness :
    (7 : ℕ) < ([0, 1, 2, 3, 4, 5, 6, 7, 8] : List ℚ).length
    ∧ Lag [0, 1, 2, 3, 4, 5, 6, 7, 8] 7 7
        = ([0, 1, 2, 3, 4, 5, 6, 7, 8] : List ℚ).get ⟨0, by simp⟩ :=
  ⟨by simp, (C7_lag_and_trailing_window [0, 1, 2, 3, 4, 5, 6, 7, 8] 7
    (by simp)).1 (by norm_num)⟩

/-- C4.  Every day of every forecast series returned by `forecast_demand` has
a nonnegative predicted demand, and a confidence score inside [0.3, 0.95]
that is exactly the product of the base constant 0.7, the data-volume factor,
the site-specificity factor, the equipment-type-specificity factor and the
time-distance decay factor, clamped to that interval (then rounded to two
decimals, which respects both bounds). -/
theorem C4_forecast_bounds (modelsTrained : Bool) (data : List MLRec)
    (ty? site? : Option String) (daysAhead : ℕ) (gp sp : ℕ → ℚ)
    (sms : List String) (dfacts : ℕ → ℕ × ℕ) (out : List (ℚ × ℚ))
    (hout : forecast_demand modelsTrained data ty? site? daysAhead gp sp sms dfacts
      = .ok out)
    (e : ℚ × ℚ) (he : e ∈ out) :
    0 ≤ e.1
    ∧ 3 / 10 ≤ e.2 ∧ e.2 ≤ 19 / 20
    ∧ ∃ i : ℕ, e.2 = pyRound (min (19 / 20) (max (3 / 10)
        ((7 / 10) * data_factor (forecast_filter data ty? site?).length
          * site_factor (forecast_filter data ty? site?) site?
          * equipment_factor (forecast_filter data ty? site?) ty?
          * time_factor (i + 1)))) 2 := by
  cases modelsTrained with
  | false => simp [forecast_demand] at hout
  | true =>
    by_cases h2 : (forecast_filter data ty? site?).length = 0
    · simp [forecast_demand, h2] at hout
    · simp only [forecast_demand] at hout
      rw [if_neg (show ¬(true = false) by simp), if_neg h2, Except.ok.injEq] at hout
      subst hout
      obtain ⟨i, hirange, hfe⟩ := List.mem_map.mp he
      have he1 : ∃ x : ℚ, e.1 = pyRound (max 0 x) 1 :=
        ⟨_, (congrArg Prod.fst hfe).symm⟩
      have he2 : e.2 = pyRound (calculate_forecast_confidence
          (forecast_filter data ty? site?) ty? site? (i + 1)) 2 :=
        (congrArg Prod.snd hfe).symm
      have hconf_lo : (3 : ℚ) / 10
          ≤ calculate_forecast_confidence (forecast_filter data ty? site?) ty? site? (i + 1) := by
        unfold calculate_forecast_confidence
        exact le_min (by norm_num) (le_max_left _ _)
      have hconf_hi : calculate_forecast_confidence
          (forecast_filter data ty? site?) ty? site? (i + 1) ≤ 19 / 20 :=
        min_le_left _ _
      refine ⟨?_, ?_, ?_, i, ?_⟩
      · obtain ⟨x, hx⟩ := he1
        rw [hx]
        have h0 : ((0 : ℤ) : ℚ) ≤ (max 0 x) * 10 ^ 1 :=
          mul_nonneg (by exact le_max_left 0 _) (by norm_num)
        have := le_pyRound h0
        simpa using this
      · rw [he2]
        have h30 : ((30 : ℤ) : ℚ)
            ≤ calculate_forecast_confidence (forecast_filter data ty? site?) ty? site? (i + 1)
              * 10 ^ 2 := by
          push_cast
          nlinarith [hconf_lo]
        have := le_pyRound h30
        calc (3 : ℚ) / 10 = ((30 : ℤ) : ℚ) / 10 ^ 2 := by norm_num
          _ ≤ _ := this
      · rw [he2]
        have h95 : calculate_forecast_confidence (forecast_filter data ty? site?) ty? site? (i + 1)
            * 10 ^ 2 ≤ ((95 : ℤ) : ℚ) := by
          push_cast
          nlinarith [hconf_hi]
        have := pyRound_le h95
        calc pyRound _ 2 ≤ ((95 : ℤ) : ℚ) / 10 ^ 2 := this
          _ = 19 / 20 := by norm_num
      · rw [he2]
        rfl

set_option maxRecDepth 8000 in
/-- C4 witness: a one-day forecast on a concrete one-record snapshot yields
demand 0 and confidence 0.42, and the bounds theorem applies to it. -/
theorem C4_witness :
    forecast_demand true [{ userId := "S", ty := "E" }] none none 1
        (fun _ => 0) (fun _ => 0) [] (fun _ => (0, 1)) = .ok [(0, 21 / 50)]
    ∧ (0 ≤ (((0 : ℚ), (21 / 50 : ℚ))).1
        ∧ 3 / 10 ≤ (((0 : ℚ), (21 / 50 : ℚ))).2
        ∧ (((0 : ℚ), (21 / 50 : ℚ))).2 ≤ 19 / 20
        ∧ ∃ i : ℕ, (((0 : ℚ), (21 / 50 : ℚ))).2
            = pyRound (min (19 / 20) (max (3 / 10)
                ((7 / 10) * data_factor (forecast_filter
                      [{ userId := "S", ty := "E" }] none none).length
                  * site_factor (forecast_filter
                      [{ userId := "S", ty := "E" }] none none) none
                  * equipment_factor (forecast_filter
                      [{ userId := "S", ty := "E" }] none none) none
                  * time_factor (i + 1)))) 2) :=
  have hout : forecast_demand true [{ userId := "S", ty := "E" }] none none 1
      (fun _ => 0) (fun _ => 0) [] (fun _ => (0, 1)) = .ok [(0, 21 / 50)] := by
    have hcns : apply_realistic_constraints 0 0 1 [{ userId := "S", ty := "E" }] none none
        = 0 := by
      norm_num [apply_realistic_constraints, cap_site, cap_equipment, max_def, min_def]
    have hcnf : calculate_forecast_confidence [{ userId := "S", ty := "E" }] none none 1
        = 2079 / 5000 := by
      norm_num [calculate_forecast_confidence, data_factor, site_factor,
        equipment_factor, time_factor, max_def, min_def]
    have hp0 : pyRound ((0 : ℚ)) 1 = 0 := by
      norm_num [pyRound, pyRoundInt]
    have hp1 : pyRound (max 0 (0 : ℚ)) 1 = 0 := by
      norm_num [pyRound, pyRoundInt]
    have hp2 : pyRound ((2079 : ℚ) / 5000) 2 = 21 / 50 := by
      have h100 : (2079 : ℚ) / 5000 * 10 ^ 2 = 2079 / 50 := by norm_num
      unfold pyRound pyRoundInt
      rw [h100, show ⌊(2079 : ℚ) / 50⌋ = 41 from by norm_num [Int.floor_eq_iff]]
      norm_num
    simp only [forecast_demand, forecast_filter, List.range_succ, List.range_zero,
      List.nil_append, List.map_cons, List.map_nil]
    rw [if_neg (show ¬(true = false) by simp), if_neg (by norm_num)]
    norm_num [hcns, hcnf, hp0, hp1, hp2]
  ⟨hout, C4_forecast_bounds true [{ userId := "S", ty := "E" }] none none 1
    (fun _ => 0) (fun _ => 0) [] (fun _ => (0, 1)) [(0, 21 / 50)] hout
    ((0 : ℚ), (21 / 50 : ℚ)) (by simp)⟩

/-- C9 counterexample.  Saving and reloading a concrete trained detector does
restore exactly the saved dictionaries, but the saved model entries omit the
cached `X_scaled` matrices, so `run_complete_analysis` on the reloaded state
raises a `KeyError` instead of reproducing the original consensus output:
the round-trip does not yield identical anomaly outputs. -/
theorem C9_counterexample :
    run_complete_analysis (load_models (save_models st0)) rows0
      ≠ run_complete_analysis st0 rows0 := by
  intro h
  have hL : (run_complete_analysis (load_models (save_models st0)) rows0).isOk = false := by
    rfl
  have hR : (run_complete_analysis st0 rows0).isOk = true := by
    rfl
  rw [h, hR] at hL
  simp at hL

/-- A state whose first stored model entry lacks the cached `X_scaled` matrix
makes `run_complete_analysis` fail with the `KeyError` (the Python loop reads
`model_info[X_scaled]` for every stored model). -/
theorem run_analysis_missing_cache_isOk (st : DetectorState) (rows : List FeatureRow)
    (a : String × ModelEntry) (l : List (String × ModelEntry))
    (hm : st.models = a :: l) (ha : a.2.X_scaled = none) :
    (run_complete_analysis st rows).isOk = false := by
  have hga : (do
      let fl ← mlFlagsOfEntry a.2
      pure (a.1 ++ "_is_anomaly", fl) : Except String (String × List Bool))
      = Except.error "KeyError: X_scaled" := by
    simp [mlFlagsOfEntry, ha]
  have hmm : List.mapM (fun kv => do
      let fl ← mlFlagsOfEntry kv.2
      pure (kv.1 ++ "_is_anomaly", fl)) (a :: l)
      = (Except.error "KeyError: X_scaled" : Except String (List (String × List Bool))) := by
    rw [List.mapM_cons, hga]
    rfl
  unfold run_complete_analysis
  rw [hm, hmm]
  rfl

/-- C9, amended.  `load_models (save_models st)` restores exactly the saved
state: the thresholds, the feature-column list, and every model entry up to
the dropped `X_scaled` key; statistical detection, which reads only
thresholds and feature columns, is identical on the reloaded state (as are
the demand forecaster's outputs, whose save/load round-trips its whole model
dictionary); but the complete consensus analysis reads the dropped
`X_scaled` matrices and therefore fails on any reloaded state with at least
one stored model, instead of reproducing the original outputs. -/
theorem C9_save_load_roundtrip (st : DetectorState) (rows : List FeatureRow) :
    (load_models (save_models st)).thresholds = st.thresholds
    ∧ (load_models (save_models st)).feature_columns = st.feature_columns
    ∧ (load_models (save_models st)).models
        = st.models.map (fun kv => (kv.1,
            { model := kv.2.model, scaler := kv.2.scaler, X_scaled := none }))
    ∧ (∀ row, statRowScore (load_models (save_models st)) row = statRowScore st row)
    ∧ (st.models ≠ [] →
        (run_complete_analysis (load_models (save_models st)) rows).isOk = false) := by
  refine ⟨rfl, rfl, ?_, fun row => rfl, ?_⟩
  · simp [save_models, load_models, List.map_map]
  · intro hne
    rcases hst : st.models with _ | ⟨kv, rest⟩
    · exact absurd hst hne
    · have hmodels : (load_models (save_models st)).models
          = (kv.1, { model := kv.2.model, scaler := kv.2.scaler, X_scaled := none }) ::
            rest.map (fun kv2 => (kv2.1,
              { model := kv2.2.model, scaler := kv2.2.scaler, X_scaled := none })) := by
        simp [save_models, load_models, hst, List.map_map]
      exact run_analysis_missing_cache_isOk _ rows _ _ hmodels rfl

/-- C9 witness: the amended round-trip contract applied to the concrete
trained state `st0`. -/
theorem C9_witness :
    AnomalyDetector.st0.models ≠ []
    ∧ (run_complete_analysis (load_models (save_models st0)) rows0).isOk = false :=
  ⟨by simp [st0], (C9_save_load_roundtrip st0 rows0).2.2.2.2 (by simp [st0])⟩

/-- Membership in pandas `unique` is membership in the column. -/
theorem mem_uniques : ∀ (l : List String) (a : String), a ∈ uniques l ↔ a ∈ l := by
  intro l
  induction l using uniques.induct with
  | case1 => intro a; simp [uniques]
  | case2 x xs ih =>
      intro a
      rw [uniques]
      simp only [List.mem_cons, ih, List.mem_filter, bne_iff_ne, ne_eq]
      by_cases hax : a = x <;> simp [hax]

/-- pandas `unique` yields no duplicates. -/
theorem nodup_uniques : ∀ l : List String, (uniques l).Nodup := by
  intro l
  induction l using uniques.induct with
  | case1 => simp [uniques]
  | case2 x xs ih =>
      rw [uniques]
      refine List.nodup_cons.mpr ⟨?_, ih⟩
      rw [mem_uniques]
      simp [List.mem_filter]

/-- Summing an indicator over a duplicate-free list that contains the marked
element yields the indicator value once. -/
theorem sum_map_ite_eq {α : Type} [DecidableEq α] (m : ℕ) :
    ∀ (l : List α) (a : α), l.Nodup → a ∈ l →
      (l.map fun x => if x = a then m else 0).sum = m := by
  intro l
  induction l with
  | nil => intro a _ ha; simp at ha
  | cons x xs ih =>
      intro a hnd ha
      rcases List.mem_cons.mp ha with rfl | ha2
      · have hx : a ∉ xs := (List.nodup_cons.mp hnd).1
        have hz : (xs.map fun y => if y = a then m else 0).sum = 0 := by
          apply List.sum_eq_zero
          intro z hz
          obtain ⟨y, hy, rfl⟩ := List.mem_map.mp hz
          have hya : y ≠ a := fun h => hx (h ▸ hy)
          rw [if_neg hya]
        simp [hz]
      · have hne : x ≠ a := by
          rintro rfl
          exact (List.nodup_cons.mp hnd).1 ha2
        simp only [List.map_cons, List.sum_cons, if_neg hne]
        rw [ih a (List.nodup_cons.mp hnd).2 ha2]
        omega

/-- C5.  For every snapshot, every date between the earliest check-out and the
latest check-in, and every (site, equipment_type) pair observed in the
snapshot, the series produced by `load_and_transform_data` contains exactly
one row keyed by that (date, site, type), and every such row's
`Active_Rentals` equals the number of records of that pair whose rental
interval covers the date — an explicit 0 row when no record covers it, never
a missing entry. -/
theorem C5_daily_series (df : List RentalRow) (d : ℕ) (s t : String)
    (hlo : minimumD (df.map fun r => r.checkOut) ≤ d)
    (hhi : d ≤ maximumD (df.map fun r => r.checkIn))
    (hobs : ∃ r ∈ df, r.site = s ∧ r.ty = t) :
    ((load_and_transform_data df).filter fun p =>
        (p.date == d) && (p.site == s) && (p.ty == t)).length = 1
    ∧ ∀ p ∈ load_and_transform_data df,
        p.date = d → p.site = s → p.ty = t →
          p.Active_Rentals = activeCount df d s t := by
  obtain ⟨r0, hr0, hr0s, hr0t⟩ := hobs
  have hdmem : d ∈ dateRange df := by
    unfold dateRange
    rw [List.mem_range'_1]
    omega
  have hsmem : s ∈ uniques (df.map fun r => r.site) := by
    rw [mem_uniques]
    exact List.mem_map.mpr ⟨r0, hr0, hr0s⟩
  have htmem : t ∈ uniques (df.map fun r => r.ty) := by
    rw [mem_uniques]
    exact List.mem_map.mpr ⟨r0, hr0, hr0t⟩
  have hdnd : (dateRange df).Nodup := by
    unfold dateRange
    exact List.nodup_range' _ _
  have hsnd := nodup_uniques (df.map fun r => r.site)
  have htnd := nodup_uniques (df.map fun r => r.ty)
  have hperm : (load_and_transform_data df).Perm
      ((dateRange df).flatMap fun d' =>
        (uniques (df.map fun r => r.site)).flatMap fun s' =>
          (uniques (df.map fun r => r.ty)).flatMap fun t' =>
            [demandPoint df d' s' t']) :=
    List.mergeSort_perm _ _
  have hkey_single : ∀ (d' : ℕ) (s' t' : String),
      List.countP (fun p : DemandPoint => (p.date == d) && (p.site == s) && (p.ty == t))
        [demandPoint df d' s' t']
      = if d' = d then (if s' = s then (if t' = t then 1 else 0) else 0) else 0 := by
    intro d' s' t'
    by_cases h1 : d' = d <;> by_cases h2 : s' = s <;> by_cases h3 : t' = t <;>
      simp [List.countP_cons, demandPoint, h1, h2, h3]
  have hinner : ∀ (d' : ℕ) (s' : String),
      List.countP (fun p : DemandPoint => (p.date == d) && (p.site == s) && (p.ty == t))
        ((uniques (df.map fun r => r.ty)).flatMap fun t' => [demandPoint df d' s' t'])
      = if d' = d ∧ s' = s then 1 else 0 := by
    intro d' s'
    rw [List.countP_flatMap]
    by_cases h12 : d' = d ∧ s' = s
    · obtain ⟨h1, h2⟩ := h12
      rw [if_pos ⟨h1, h2⟩]
      have hcongr : List.map
          ((List.countP fun p : DemandPoint =>
            (p.date == d) && (p.site == s) && (p.ty == t)) ∘
              fun t' => [demandPoint df d' s' t'])
          (uniques (df.map fun r => r.ty))
          = List.map (fun t' => if t' = t then 1 else 0)
              (uniques (df.map fun r => r.ty)) := by
        apply List.map_congr_left
        intro t' _
        simp only [Function.comp_apply, hkey_single, h1, h2, if_true]
      rw [hcongr, sum_map_ite_eq 1 _ t htnd htmem]
    · rw [if_neg h12]
      apply List.sum_eq_zero
      intro x hx
      obtain ⟨t', _, rfl⟩ := List.mem_map.mp hx
      simp only [Function.comp_apply, hkey_single]
      by_cases h1 : d' = d
      · by_cases h2 : s' = s
        · exact absurd ⟨h1, h2⟩ h12
        · simp [h1, h2]
      · simp [h1]
  have hmid : ∀ d' : ℕ,
      List.countP (fun p : DemandPoint => (p.date == d) && (p.site == s) && (p.ty == t))
        ((uniques (df.map fun r => r.site)).flatMap fun s' =>
          (uniques (df.map fun r => r.ty)).flatMap fun t' => [demandPoint df d' s' t'])
      = if d' = d then 1 else 0 := by
    intro d'
    rw [List.countP_flatMap]
    by_cases h1 : d' = d
    · rw [if_pos h1]
      have hcongr : List.map
          ((List.countP fun p : DemandPoint =>
            (p.date == d) && (p.site == s) && (p.ty == t)) ∘
              fun s' => (uniques (df.map fun r => r.ty)).flatMap fun t' =>
                [demandPoint df d' s' t'])
          (uniques (df.map fun r => r.site))
          = List.map (fun s' => if s' = s then 1 else 0)
              (uniques (df.map fun r => r.site)) := by
        apply List.map_congr_left
        intro s' _
        simp only [Function.comp_apply, hinner, h1, true_and]
      rw [hcongr, sum_map_ite_eq 1 _ s hsnd hsmem]
    · rw [if_neg h1]
      apply List.sum_eq_zero
      intro x hx
      obtain ⟨s', _, rfl⟩ := List.mem_map.mp hx
      simp only [Function.comp_apply, hinner]
      simp [h1]
  have hcount : List.countP
      (fun p : DemandPoint => (p.date == d) && (p.site == s) && (p.ty == t))
      (load_and_transform_data df) = 1 := by
    rw [hperm.countP_eq, List.countP_flatMap]
    have hcongr : List.map
        ((List.countP fun p : DemandPoint =>
          (p.date == d) && (p.site == s) && (p.ty == t)) ∘
            fun d' => (uniques (df.map fun r => r.site)).flatMap fun s' =>
              (uniques (df.map fun r => r.ty)).flatMap fun t' =>
                [demandPoint df d' s' t'])
        (dateRange df)
        = List.map (fun d' => if d' = d then 1 else 0) (dateRange df) := by
      apply List.map_congr_left
      intro d' _
      simp only [Function.comp_apply, hmid]
    rw [hcongr, sum_map_ite_eq 1 _ d hdnd hdmem]
  constructor
  · rw [← List.countP_eq_length_filter]
    exact hcount
  · intro p hp hd hs ht
    have hpL := hperm.mem_iff.mp hp
    obtain ⟨d', _, hrest⟩ := List.mem_flatMap.mp hpL
    obtain ⟨s', _, hrest2⟩ := List.mem_flatMap.mp hrest
    obtain ⟨t', _, hpmem⟩ := List.mem_flatMap.mp hrest2
    have hpe : p = demandPoint df d' s' t' := by
      simpa using hpmem
    subst hpe
    simp only [demandPoint] at hd hs ht ⊢
    subst hd
    subst hs
    subst ht
    rfl

/-- C5 witness: the daily-series contract evaluated on the concrete
two-record snapshot at day 1, where both rental intervals cover the date. -/
theorem C5_witness :
    minimumD (dfW.map fun r => r.checkOut) ≤ 1
    ∧ 1 ≤ maximumD (dfW.map fun r => r.checkIn)
    ∧ (((load_and_transform_data dfW).filter fun p =>
          (p.date == 1) && (p.site == "S1") && (p.ty == "Excavator")).length = 1
        ∧ ∀ p ∈ load_and_transform_data dfW,
            p.date = 1 → p.site = "S1" → p.ty = "Excavator" →
              p.Active_Rentals = activeCount dfW 1 "S1" "Excavator") :=
  ⟨by decide, by decide,
    C5_daily_series dfW 1 "S1" "Excavator" (by decide) (by decide)
      ⟨{ site := "S1", ty := "Excavator", checkOut := 0, checkIn := 2 },
        by decide, rfl, rfl⟩⟩
